/-
Verification development for the ironic versioned-notification subsystem
(ironic/objects/notification.py, ironic/common/rpc.py).

The Python classes are shallowly embedded: versioned-object field state is an
association list from field names to values, fallible operations return an
explicit success flag or Option, and the outbound notifier is observed as the
list of calls an emit invocation performs.
-/
import Mathlib

namespace Ironic

/-- Association-list lookup for versioned-object field dictionaries:
returns the value bound to the first occurrence of the key. -/
def dictGet {α : Type} (k : String) : List (String × α) → Option α
  | [] => none
  | (k', v) :: rest => if k = k' then some v else dictGet k rest

/-- Values a versioned-object field can hold.  `vobj` is a nested versioned
object carrying its own field dictionary and its own changed-fields
bookkeeping (used to observe that a non-recursive reset leaves it alone). -/
inductive Val where
  | vnone : Val
  | vstr (s : String) : Val
  | vint (n : Int) : Val
  | vobj (objFields : List (String × Val)) (objChanged : List String) : Val

/-- Notification priorities, from ironic.objects.fields.NotificationPriority
as used by notification.py (DEBUG, INFO, WARN, ERROR). -/
inductive NotificationPriority where
  | debug : NotificationPriority
  | info : NotificationPriority
  | warn : NotificationPriority
  | error : NotificationPriority
deriving DecidableEq

/-- The string value of each priority constant; `getattr(notifier,
self.priority)` dispatches on these names, and they are the recognized
configuration choices. -/
def priorityName : NotificationPriority → String
  | .debug => "debug"
  | .info => "info"
  | .warn => "warn"
  | .error => "error"

/-- Modelled from the spec: `NotificationPriority.ALL` of
ironic.objects.fields (the module is not part of the excerpt) — the four
priority constants in increasing severity order. -/
def NotificationPriority.all : List NotificationPriority :=
  [.debug, .info, .warn, .error]

/-- The `notify_priorities` rank table of NotificationBase._should_notify. -/
def notify_priorities : NotificationPriority → Nat
  | .debug => 0
  | .info => 1
  | .warn => 2
  | .error => 3

/-- NotificationBase._should_notify: false when CONF.notification_priority is
None, otherwise compares ranks.  `conf` is the configured threshold. -/
def should_notify (conf : Option NotificationPriority)
    (priority : NotificationPriority) : Bool :=
  match conf with
  | none => false
  | some c => notify_priorities priority ≥ notify_priorities c

/-- EventType: `object` and `action` are non-nullable strings; `phase` is a
nullable string, so its state is unset (`none`), set to None (`some none`),
or set to a string (`some (some s)`). -/
structure EventType where
  object : String
  action : String
  phase : Option (Option String)

/-- EventType.to_notification_event_type_field: appends the phase exactly
when the phase attribute is set and is not None. -/
def to_notification_event_type_field (e : EventType) : String :=
  let s := "baremetal." ++ e.object ++ "." ++ e.action
  match e.phase with
  | some (some p) => s ++ "." ++ p
  | _ => s

/-- NotificationPublisher: service and host strings. -/
structure NotificationPublisher where
  service : String
  host : String

/-- A source object handed to populate_schema: its explicitly set fields.
`obj_attr_is_set` of a field means the field appears in this dictionary. -/
structure SourceObj where
  srcFields : List (String × Val)

/-- oslo versioned-object `obj_attr_is_set`: the attribute has been
explicitly set on the object (possibly to None, which is `Val.vnone`). -/
def obj_attr_is_set (s : SourceObj) (f : String) : Bool :=
  (dictGet f s.srcFields).isSome

/-- State of a NotificationPayloadBase instance: its class name and version
(used by serialization), its SCHEMA, the field dictionary, the
changed-fields bookkeeping, and the `populated` flag. -/
structure PayloadState where
  objName : String
  objVersion : String
  schema : List (String × String × String)
  objFields : List (String × Val)
  changed : List String
  populated : Bool

/-- NotificationPayloadBase.__init__: stores the constructor kwargs as set
(and changed) fields; `populated` is true exactly when SCHEMA is empty. -/
def mkPayload (name version : String) (schema : List (String × String × String))
    (init : List (String × Val)) : PayloadState :=
  { objName := name
    objVersion := version
    schema := schema
    objFields := init
    changed := init.map (·.1)
    populated := schema.isEmpty }

/-- `setattr(self, key, v)` on a payload: binds the field and records it in
the changed-fields bookkeeping. -/
def setPayloadField (p : PayloadState) (key : String) (v : Val) : PayloadState :=
  { p with objFields := (key, v) :: p.objFields, changed := key :: p.changed }

/-- The loop of NotificationPayloadBase.populate_schema over SCHEMA items
`key: (obj, field)`.  `kwargs[obj]` missing is a KeyError, modelled as a
`false` success flag with the mutations performed so far kept (in-place
mutation); `self.populated = True` runs only after the whole loop. -/
def populate_schema_aux (kwargs : List (String × SourceObj)) :
    List (String × String × String) → PayloadState → PayloadState × Bool
  | [], p => ({ p with populated := true }, true)
  | (key, obj, field) :: rest, p =>
    match dictGet obj kwargs with
    | none => (p, false)
    | some source =>
      match dictGet field source.srcFields with
      | some v => populate_schema_aux kwargs rest (setPayloadField p key v)
      | none => populate_schema_aux kwargs rest p

/-- NotificationPayloadBase.populate_schema. -/
def populate_schema (p : PayloadState) (kwargs : List (String × SourceObj)) :
    PayloadState × Bool :=
  populate_schema_aux kwargs p.schema p

/-- oslo versioned-object `obj_reset_changes(recursive=False)`: clears this
object's changed-fields bookkeeping only; field values (and hence any
nested object's bookkeeping) are untouched. -/
def obj_reset_changes (p : PayloadState) : PayloadState :=
  { p with changed := [] }

/-- Top-level values of the serialized (primitive) payload structure. -/
inductive PrimVal where
  | pstr (s : String) : PrimVal
  | pdata (d : List (String × Val)) : PrimVal
  | pchanges (cs : List String) : PrimVal

/-- oslo versioned-object `obj_to_primitive` for an IronicObject, with the
key prefix and namespace value pinned by the repository's unit tests
(test_notification.py expects keys ironic_object.name/.data/.version/
.namespace with namespace value "ironic"): the four tagged entries, plus a
changed-fields entry when the bookkeeping is non-empty (the behaviour the
NOTE in NotificationBase.emit drops by resetting changes first). -/
def obj_to_primitive (p : PayloadState) : List (String × PrimVal) :=
  [("ironic_object.name", .pstr p.objName),
   ("ironic_object.data", .pdata p.objFields),
   ("ironic_object.version", .pstr p.objVersion),
   ("ironic_object.namespace", .pstr "ironic")]
  ++ (if p.changed.isEmpty then [] else [("ironic_object.changes", .pchanges p.changed)])

/-- An opaque request context token, passed through to the notifier. -/
structure Ctx where
  tok : Nat
deriving DecidableEq

/-- State of a NotificationBase instance. -/
structure Notification where
  priority : NotificationPriority
  event_type : EventType
  publisher : NotificationPublisher
  payload : PayloadState

/-- One observed call to the external oslo.messaging notifier: the
publisher_id handed to rpc.get_versioned_notifier (which prepares
VERSIONED_NOTIFIER with it), the method name selected by getattr on the
priority, and the positional/keyword arguments of the send. -/
structure NotifierCall where
  publisher_id : String
  method : String
  context : Ctx
  event_type : String
  payload : List (String × PrimVal)

/-- NotificationBase.emit (with _emit inlined): asserts payload.populated
(`none` models the AssertionError), consults _should_notify, and if the gate
passes resets the payload changes non-recursively and performs exactly one
notifier call.  Returns the resulting payload state and the calls made. -/
def emit (conf : Option NotificationPriority) (n : Notification) (ctx : Ctx) :
    Option (PayloadState × List NotifierCall) :=
  if n.payload.populated then
    if should_notify conf n.priority then
      let p := obj_reset_changes n.payload
      some (p,
        [{ publisher_id := n.publisher.service ++ "." ++ n.publisher.host
           method := priorityName n.priority
           context := ctx
           event_type := to_notification_event_type_field n.event_type
           payload := obj_to_primitive p }])
    else
      some (n.payload, [])
  else
    none

/-- The notifier calls an emit invocation performs (none when the populated
assertion fails, since the assert precedes everything else). -/
def emitCalls (conf : Option NotificationPriority) (n : Notification)
    (ctx : Ctx) : List NotifierCall :=
  match emit conf n ctx with
  | some (_, cs) => cs
  | none => []

/-- Result of a Python expression that is either None or a list of
string-or-None choices, as passed to oslo_config StrOpt(choices=...). -/
inductive PyStrOptChoices where
  | pynone : PyStrOptChoices
  | pylist (cs : List (Option String)) : PyStrOptChoices

/-- Python `xs.append(x)`: mutates the list in place and evaluates to None;
the pair is (mutated list, expression value). -/
def pyListAppend (xs : List (Option String)) (x : Option String) :
    List (Option String) × PyStrOptChoices :=
  (xs ++ [x], .pynone)

/-- The `choices` argument of the notification_priority StrOpt in
ironic/common/rpc.py: the value of the Python expression
`list(ironic_fields.NotificationPriority.ALL).append(None)`. -/
def notification_priority_choices : PyStrOptChoices :=
  (pyListAppend (NotificationPriority.all.map (fun p => some (priorityName p))) none).2

/-- Modelled from the spec: oslo_config StrOpt value validation (the library
is outside the excerpt) — a value is accepted iff `choices` is None
(unrestricted) or the value is one of the choices. -/
def strOptAccepts : PyStrOptChoices → Option String → Bool
  | .pynone, _ => true
  | .pylist cs, v => cs.contains v

/- Concrete fixtures mirroring TestNotificationBase of
test_notification.py. -/

/-- The TestObject instance with fake_field_1='fake1', fake_field_2=2. -/
def testSource : SourceObj :=
  ⟨[("fake_field_1", .vstr "fake1"), ("fake_field_2", .vint 2)]⟩

/-- TestNotificationPayload.SCHEMA. -/
def testSchema : List (String × String × String) :=
  [("fake_field_1", "test_obj", "fake_field_1"),
   ("fake_field_2", "test_obj", "fake_field_2")]

/-- TestNotificationPayload(an_extra_field='extra', an_optional_field=1),
before populate_schema. -/
def testPayload0 : PayloadState :=
  mkPayload "TestNotificationPayload" "1.0" testSchema
    [("an_extra_field", .vstr "extra"), ("an_optional_field", .vint 1)]

/-- The test payload after populate_schema(test_obj=fake_obj). -/
def testPayload : PayloadState :=
  (populate_schema testPayload0 [("test_obj", testSource)]).1

/-- The EventType used throughout the tests. -/
def testEventType : EventType :=
  ⟨"test_object", "test", some (some "start")⟩

/-- NotificationPublisher(service='ironic-conductor', host='host'). -/
def testPublisher : NotificationPublisher :=
  ⟨"ironic-conductor", "host"⟩

/-- The TestNotification instance of test_emit_notification. -/
def testNotification : Notification :=
  { priority := .debug
    event_type := testEventType
    publisher := testPublisher
    payload := testPayload }

/-- The notification of test_no_emit_schema_not_populated: same shape but the
payload never went through populate_schema. -/
def testNotificationUnpopulated : Notification :=
  { priority := .debug
    event_type := testEventType
    publisher := testPublisher
    payload := testPayload0 }

/-- A source object with no field set at all (so schema population copies
zero fields). -/
def emptySource : SourceObj := ⟨[]⟩

/-- Boolean string-prefix test, via the underlying character lists. -/
def strStartsWith (s p : String) : Bool := p.data.isPrefixOf s.data

/-- The single notifier call test_emit_notification observes, with the
serialized payload spelled out (the data dictionary binds the two schema
fields copied from the source and the two directly-set fields). -/
def testCall : NotifierCall :=
  { publisher_id := "ironic-conductor.host"
    method := "debug"
    context := ⟨0⟩
    event_type := "baremetal.test_object.test.start"
    payload :=
      [("ironic_object.name", .pstr "TestNotificationPayload"),
       ("ironic_object.data",
        .pdata [("fake_field_2", .vint 2), ("fake_field_1", .vstr "fake1"),
                ("an_extra_field", .vstr "extra"), ("an_optional_field", .vint 1)]),
       ("ironic_object.version", .pstr "1.0"),
       ("ironic_object.namespace", .pstr "ironic")] }

/- Helper lemmas about the populate_schema loop. -/

/-- Fields whose name is not a schema key are never written by the loop. -/
theorem populate_aux_not_mem (kwargs : List (String × SourceObj))
    (entries : List (String × String × String)) :
    ∀ (p : PayloadState) (k : String), (∀ e ∈ entries, k ≠ e.1) →
      dictGet k ((populate_schema_aux kwargs entries p).1).objFields =
        dictGet k p.objFields := by
  induction entries with
  | nil => intro p k _; rfl
  | cons hd rest ih =>
    intro p k hk
    obtain ⟨key, obj, field⟩ := hd
    have hkey : k ≠ key := hk _ (List.mem_cons_self _ _)
    have hk' : ∀ e ∈ rest, k ≠ e.1 := fun e he => hk e (List.mem_cons_of_mem _ he)
    cases hko : dictGet obj kwargs with
    | none => simp [populate_schema_aux, hko]
    | some source =>
      cases hfo : dictGet field source.srcFields with
      | none =>
        simp only [populate_schema_aux, hko, hfo]
        exact ih p k hk'
      | some v =>
        simp only [populate_schema_aux, hko, hfo]
        rw [ih (setPayloadField p key v) k hk']
        simp [setPayloadField, dictGet, hkey]

/-- When some schema entry's source key is absent from the kwargs, the loop
reports failure (the KeyError) and never reaches the final
`self.populated = True`. -/
theorem populate_aux_missing (kwargs : List (String × SourceObj))
    (entries : List (String × String × String)) :
    ∀ (p : PayloadState), (∃ e ∈ entries, dictGet e.2.1 kwargs = none) →
      (populate_schema_aux kwargs entries p).2 = false ∧
      (populate_schema_aux kwargs entries p).1.populated = p.populated := by
  induction entries with
  | nil => intro p h; obtain ⟨e, he, _⟩ := h; simp at he
  | cons hd rest ih =>
    intro p h
    obtain ⟨key, obj, field⟩ := hd
    cases hko : dictGet obj kwargs with
    | none => simp [populate_schema_aux, hko]
    | some source =>
      have hrest : ∃ e ∈ rest, dictGet e.2.1 kwargs = none := by
        obtain ⟨e, he, hme⟩ := h
        rcases List.mem_cons.mp he with rfl | he'
        · simp only at hme
          rw [hme] at hko
          exact absurd hko (by simp)
        · exact ⟨e, he', hme⟩
      cases hfo : dictGet field source.srcFields with
      | none =>
        simp only [populate_schema_aux, hko, hfo]
        exact ih p hrest
      | some v =>
        simp only [populate_schema_aux, hko, hfo]
        have := ih (setPayloadField p key v) hrest
        simpa [setPayloadField] using this

/-- When every schema entry's source key is present, the loop completes and
sets `populated` to true. -/
theorem populate_aux_success (kwargs : List (String × SourceObj))
    (entries : List (String × String × String)) :
    ∀ (p : PayloadState), (∀ e ∈ entries, (dictGet e.2.1 kwargs).isSome) →
      (populate_schema_aux kwargs entries p).2 = true ∧
      (populate_schema_aux kwargs entries p).1.populated = true := by
  induction entries with
  | nil => intro p _; exact ⟨rfl, rfl⟩
  | cons hd rest ih =>
    intro p h
    obtain ⟨key, obj, field⟩ := hd
    have hhd := h _ (List.mem_cons_self _ _)
    simp only at hhd
    have hrest : ∀ e ∈ rest, (dictGet e.2.1 kwargs).isSome :=
      fun e he => h e (List.mem_cons_of_mem _ he)
    cases hko : dictGet obj kwargs with
    | none => rw [hko] at hhd; exact absurd hhd (by simp)
    | some source =>
      cases hfo : dictGet field source.srcFields with
      | none =>
        simp only [populate_schema_aux, hko, hfo]
        exact ih p hrest
      | some v =>
        simp only [populate_schema_aux, hko, hfo]
        exact ih (setPayloadField p key v) hrest

/-- Value of a schema field after the loop, when all source keys are present
and the schema keys are distinct: the source field's value when it is set,
the field's previous binding otherwise. -/
theorem populate_aux_mem (kwargs : List (String × SourceObj))
    (e : String × String × String) (src : SourceObj)
    (entries : List (String × String × String)) :
    ∀ (p : PayloadState), (entries.map (·.1)).Nodup →
      (∀ x ∈ entries, (dictGet x.2.1 kwargs).isSome) →
      e ∈ entries → dictGet e.2.1 kwargs = some src →
      dictGet e.1 ((populate_schema_aux kwargs entries p).1).objFields =
        (dictGet e.2.2 src.srcFields).or (dictGet e.1 p.objFields) := by
  induction entries with
  | nil => intro p _ _ he _; simp at he
  | cons hd rest ih =>
    intro p hnodup hall he hsrc
    obtain ⟨key, obj, field⟩ := hd
    rw [List.map_cons] at hnodup
    have hnd := List.nodup_cons.mp hnodup
    have hrest : ∀ x ∈ rest, (dictGet x.2.1 kwargs).isSome :=
      fun x hx => hall x (List.mem_cons_of_mem _ hx)
    have hhd := hall _ (List.mem_cons_self _ _)
    simp only at hhd
    cases hko : dictGet obj kwargs with
    | none => rw [hko] at hhd; exact absurd hhd (by simp)
    | some source =>
      rcases List.mem_cons.mp he with rfl | he'
      · simp only at hsrc
        rw [hsrc] at hko
        injection hko with hko
        have hnot : ∀ x ∈ rest, key ≠ x.1 := by
          intro x hx hcontra
          exact hnd.1 (hcontra ▸ List.mem_map_of_mem (·.1) hx)
        cases hfo : dictGet field source.srcFields with
        | some v =>
          simp only [populate_schema_aux, hsrc, hko, hfo]
          rw [populate_aux_not_mem kwargs rest (setPayloadField p key v) key hnot]
          simp [setPayloadField, dictGet, hko ▸ hfo]
        | none =>
          simp only [populate_schema_aux, hsrc, hko, hfo]
          rw [populate_aux_not_mem kwargs rest p key hnot]
          simp [hko ▸ hfo]
      · have hne : e.1 ≠ key := by
          intro hcontra
          exact hnd.1 (hcontra ▸ List.mem_map_of_mem (·.1) he')
        cases hfo : dictGet field source.srcFields with
        | some v =>
          simp only [populate_schema_aux, hko, hfo]
          rw [ih (setPayloadField p key v) hnd.2 hrest he' hsrc]
          simp [setPayloadField, dictGet, hne]
        | none =>
          simp only [populate_schema_aux, hko, hfo]
          exact ih p hnd.2 hrest he' hsrc

/-- C5: formatting an EventType with non-empty object and action yields
"baremetal.object.action", with ".phase" appended exactly when phase is set
and non-None; in particular the two concrete examples of the test suite. -/
theorem c5_event_type_format :
    (∀ (o a : String) (ph : Option (Option String)), o ≠ "" → a ≠ "" →
       to_notification_event_type_field ⟨o, a, ph⟩ =
         "baremetal." ++ o ++ "." ++ a ++
           (match ph with
            | some (some p) => "." ++ p
            | _ => "")) ∧
    to_notification_event_type_field ⟨"test_object", "test", some (some "start")⟩ =
      "baremetal.test_object.test.start" ∧
    to_notification_event_type_field ⟨"x", "y", some none⟩ = "baremetal.x.y" := by
  refine ⟨?_, rfl, rfl⟩
  intro o a ph _ _
  cases ph with
  | none => simp [to_notification_event_type_field]
  | some po =>
    cases po with
    | none => simp [to_notification_event_type_field]
    | some p => simp [to_notification_event_type_field, String.append_assoc]

/-- Witness for C5 at the concrete inputs of the spec's examples. -/
theorem c5_event_type_format_witness :
    ("x" : String) ≠ "" ∧ ("y" : String) ≠ "" ∧
    to_notification_event_type_field ⟨"x", "y", none⟩ = "baremetal.x.y" :=
  ⟨by decide, by decide,
   c5_event_type_format.1 "x" "y" none (by decide) (by decide)⟩

/-- C9: the `choices` expression of the notification_priority StrOpt is the
Python value None (list.append returns None), so the configuration surface
accepts any string, here "bogus"; the intended choices list would have
rejected it. -/
theorem c9_choices_not_validated :
    notification_priority_choices = PyStrOptChoices.pynone ∧
    strOptAccepts notification_priority_choices (some "bogus") = true ∧
    strOptAccepts
      (.pylist ((NotificationPriority.all.map (fun p => some (priorityName p))) ++ [none]))
      (some "bogus") = false :=
  ⟨rfl, rfl, rfl⟩

/-- C1: for a populated payload, emit performs a notifier call iff the
configured threshold is set and the notification's rank is at least the
threshold's rank (ranks DEBUG=0, INFO=1, WARN=2, ERROR=3); exactly one call
when the gate passes, zero otherwise, and never when the threshold is
unset. -/
theorem c1_priority_gate (conf : Option NotificationPriority) (n : Notification)
    (ctx : Ctx) (h : n.payload.populated = true) :
    (notify_priorities .debug = 0 ∧ notify_priorities .info = 1 ∧
     notify_priorities .warn = 2 ∧ notify_priorities .error = 3) ∧
    (emitCalls conf n ctx).length =
      (match conf with
       | none => 0
       | some c =>
         if notify_priorities n.priority ≥ notify_priorities c then 1 else 0) := by
  refine ⟨⟨rfl, rfl, rfl, rfl⟩, ?_⟩
  cases conf with
  | none => simp [emitCalls, emit, should_notify, h]
  | some c =>
    by_cases hge : notify_priorities n.priority ≥ notify_priorities c
    · simp [emitCalls, emit, should_notify, h, hge]
    · simp [emitCalls, emit, should_notify, h, hge]

/-- Witness for C1: the populated test notification at DEBUG with the
threshold configured to debug performs exactly one call. -/
theorem c1_priority_gate_witness :
    testNotification.payload.populated = true ∧
    ((notify_priorities .debug = 0 ∧ notify_priorities .info = 1 ∧
      notify_priorities .warn = 2 ∧ notify_priorities .error = 3) ∧
     (emitCalls (some .debug) testNotification ⟨0⟩).length = 1) :=
  ⟨rfl, c1_priority_gate (some .debug) testNotification ⟨0⟩ rfl⟩

/-- C2: emitting a freshly constructed payload with a non-empty schema (so
populate_schema has not run) fails the populated assertion and performs
zero notifier calls. -/
theorem c2_emit_unpopulated (conf : Option NotificationPriority) (n : Notification)
    (ctx : Ctx) (nm vr : String) (schema : List (String × String × String))
    (init : List (String × Val))
    (hpay : n.payload = mkPayload nm vr schema init) (hs : schema ≠ []) :
    emit conf n ctx = none ∧ emitCalls conf n ctx = [] := by
  have hpop : n.payload.populated = false := by
    rw [hpay, show (mkPayload nm vr schema init).populated = schema.isEmpty from rfl]
    exact List.isEmpty_eq_false.mpr hs
  constructor <;> simp [emit, emitCalls, hpop]

/-- Witness for C2 at the fixture of test_no_emit_schema_not_populated. -/
theorem c2_emit_unpopulated_witness :
    testNotificationUnpopulated.payload =
      mkPayload "TestNotificationPayload" "1.0" testSchema
        [("an_extra_field", .vstr "extra"), ("an_optional_field", .vint 1)] ∧
    testSchema ≠ [] ∧
    (emit (some .debug) testNotificationUnpopulated ⟨0⟩ = none ∧
     emitCalls (some .debug) testNotificationUnpopulated ⟨0⟩ = []) :=
  ⟨rfl, by decide,
   c2_emit_unpopulated (some .debug) testNotificationUnpopulated ⟨0⟩
     "TestNotificationPayload" "1.0" testSchema
     [("an_extra_field", .vstr "extra"), ("an_optional_field", .vint 1)]
     rfl (by decide)⟩

/-- C3: `populated` after construction equals schema emptiness; it is false
for a non-empty schema; a populate_schema run that completes sets it true
(regardless of how many fields were copied); and populate_schema on an
empty-schema payload is a no-op returning the payload unchanged. -/
theorem c3_populated_lifecycle :
    (∀ (nm vr : String) (schema : List (String × String × String))
        (init : List (String × Val)),
       (mkPayload nm vr schema init).populated = schema.isEmpty) ∧
    (∀ (nm vr : String) (schema : List (String × String × String))
        (init : List (String × Val)), schema ≠ [] →
       (mkPayload nm vr schema init).populated = false) ∧
    (∀ (p : PayloadState) (kwargs : List (String × SourceObj)),
       (∀ e ∈ p.schema, (dictGet e.2.1 kwargs).isSome) →
       (populate_schema p kwargs).1.populated = true) ∧
    (∀ (nm vr : String) (init : List (String × Val))
        (kwargs : List (String × SourceObj)),
       populate_schema (mkPayload nm vr [] init) kwargs =
         (mkPayload nm vr [] init, true)) := by
  refine ⟨fun _ _ _ _ => rfl, ?_, ?_, fun _ _ _ _ => rfl⟩
  · intro nm vr schema init hs
    rw [show (mkPayload nm vr schema init).populated = schema.isEmpty from rfl]
    exact List.isEmpty_eq_false.mpr hs
  · intro p kwargs h
    exact (populate_aux_success kwargs p.schema p h).2

/-- Witness for C3: the non-empty-schema test payload starts unpopulated;
populating it from a source with no field set copies nothing yet sets
populated; the empty-schema payload round-trips unchanged. -/
theorem c3_populated_lifecycle_witness :
    testSchema ≠ [] ∧
    testPayload0.populated = false ∧
    (populate_schema testPayload0 [("test_obj", emptySource)]).1.populated = true ∧
    populate_schema
        (mkPayload "TestNotificationPayloadEmptySchema" "1.0" []
          [("fake_field", .vstr "123")]) [] =
      (mkPayload "TestNotificationPayloadEmptySchema" "1.0" []
        [("fake_field", .vstr "123")], true) :=
  ⟨by decide,
   c3_populated_lifecycle.2.1 "TestNotificationPayload" "1.0" testSchema
     [("an_extra_field", .vstr "extra"), ("an_optional_field", .vint 1)] (by decide),
   c3_populated_lifecycle.2.2.1 testPayload0 [("test_obj", emptySource)] (by decide),
   c3_populated_lifecycle.2.2.2 "TestNotificationPayloadEmptySchema" "1.0"
     [("fake_field", .vstr "123")] []⟩

/-- C4: populating a fresh payload (schema fields initially unset, distinct
schema keys, all source keys present) succeeds; each schema field ends up
bound exactly to its source field's binding (copied when set, unset when
unset); fields outside the schema keep their initial bindings. -/
theorem c4_schema_copy (nm vr : String) (schema : List (String × String × String))
    (init : List (String × Val)) (kwargs : List (String × SourceObj))
    (_hne : schema ≠ [])
    (hnodup : (schema.map (·.1)).Nodup)
    (hall : ∀ e ∈ schema, (dictGet e.2.1 kwargs).isSome)
    (hunset : ∀ e ∈ schema, dictGet e.1 init = none) :
    (populate_schema (mkPayload nm vr schema init) kwargs).2 = true ∧
    (∀ e ∈ schema, ∀ src, dictGet e.2.1 kwargs = some src →
       dictGet e.1 ((populate_schema (mkPayload nm vr schema init) kwargs).1).objFields =
         dictGet e.2.2 src.srcFields) ∧
    (∀ k, (∀ e ∈ schema, k ≠ e.1) →
       dictGet k ((populate_schema (mkPayload nm vr schema init) kwargs).1).objFields =
         dictGet k init) := by
  refine ⟨(populate_aux_success kwargs schema _ hall).1, ?_, ?_⟩
  · intro e he src hsrc
    have h := populate_aux_mem kwargs e src schema (mkPayload nm vr schema init)
      hnodup hall he hsrc
    rw [show dictGet e.1 (mkPayload nm vr schema init).objFields = none from
          hunset e he] at h
    simpa using h
  · intro k hk
    exact populate_aux_not_mem kwargs schema (mkPayload nm vr schema init) k hk

/-- Witness for C4 at the fixture of test_emit_notification: both schema
fields are copied from the source and the two extra fields keep their
directly-set values. -/
theorem c4_schema_copy_witness :
    testSchema ≠ [] ∧
    (populate_schema testPayload0 [("test_obj", testSource)]).2 = true ∧
    dictGet "fake_field_1" testPayload.objFields = some (.vstr "fake1") ∧
    dictGet "fake_field_2" testPayload.objFields = some (.vint 2) ∧
    dictGet "an_extra_field" testPayload.objFields = some (.vstr "extra") ∧
    dictGet "an_optional_field" testPayload.objFields = some (.vint 1) := by
  have H := c4_schema_copy "TestNotificationPayload" "1.0" testSchema
    [("an_extra_field", Val.vstr "extra"), ("an_optional_field", Val.vint 1)]
    [("test_obj", testSource)] (by decide) (by decide) (by decide)
    (by
      intro e he
      simp only [testSchema, List.mem_cons, List.not_mem_nil, or_false] at he
      rcases he with rfl | rfl <;> rfl)
  refine ⟨by decide, H.1, ?_, ?_, ?_, ?_⟩
  · exact (H.2.1 ("fake_field_1", "test_obj", "fake_field_1") (by decide)
      testSource rfl).trans rfl
  · exact (H.2.1 ("fake_field_2", "test_obj", "fake_field_2") (by decide)
      testSource rfl).trans rfl
  · exact (H.2.2 "an_extra_field" (by decide)).trans rfl
  · exact (H.2.2 "an_optional_field" (by decide)).trans rfl

/-- C6: when the gate passes, the notifier is invoked exactly once, with the
context, the formatted event-type string, the publisher_id
"service.host", the serialized payload, and the send method named by the
priority (debug/info/warn/error). -/
theorem c6_notifier_call_shape (conf : Option NotificationPriority)
    (n : Notification) (ctx : Ctx)
    (hp : n.payload.populated = true)
    (hg : should_notify conf n.priority = true) :
    (priorityName .debug = "debug" ∧ priorityName .info = "info" ∧
     priorityName .warn = "warn" ∧ priorityName .error = "error") ∧
    emitCalls conf n ctx =
      [{ publisher_id := n.publisher.service ++ "." ++ n.publisher.host
         method := priorityName n.priority
         context := ctx
         event_type := to_notification_event_type_field n.event_type
         payload := obj_to_primitive (obj_reset_changes n.payload) }] := by
  refine ⟨⟨rfl, rfl, rfl, rfl⟩, ?_⟩
  simp [emitCalls, emit, hp, hg]

/-- Witness for C6 at the fixture of test_emit_notification. -/
theorem c6_notifier_call_shape_witness :
    testNotification.payload.populated = true ∧
    should_notify (some .debug) testNotification.priority = true ∧
    emitCalls (some .debug) testNotification ⟨0⟩ = [testCall] :=
  ⟨rfl, rfl,
   ((c6_notifier_call_shape (some .debug) testNotification ⟨0⟩ rfl rfl).2).trans rfl⟩

/-- C7 (amended): the serialized payload handed to the notifier has exactly
the four top-level keys ironic_object.name, ironic_object.data,
ironic_object.version and ironic_object.namespace, and the namespace value
is "ironic" (the serialization namespace is ironic-scoped, not
baremetal-scoped). -/
theorem c7_primitive_shape (conf : Option NotificationPriority)
    (n : Notification) (ctx : Ctx)
    (hp : n.payload.populated = true)
    (hg : should_notify conf n.priority = true)
    (c : NotifierCall) (hc : c ∈ emitCalls conf n ctx) :
    c.payload.map (·.1) =
      ["ironic_object.name", "ironic_object.data",
       "ironic_object.version", "ironic_object.namespace"] ∧
    dictGet "ironic_object.namespace" c.payload = some (.pstr "ironic") := by
  simp only [emitCalls, emit, hp, hg, if_true] at hc
  simp only [List.mem_singleton] at hc
  subst hc
  exact ⟨rfl, rfl⟩

/-- Witness for C7 at the fixture of test_emit_notification. -/
theorem c7_primitive_shape_witness :
    testNotification.payload.populated = true ∧
    should_notify (some .debug) testNotification.priority = true ∧
    testCall ∈ emitCalls (some .debug) testNotification ⟨0⟩ ∧
    (testCall.payload.map (·.1) =
       ["ironic_object.name", "ironic_object.data",
        "ironic_object.version", "ironic_object.namespace"] ∧
     dictGet "ironic_object.namespace" testCall.payload = some (.pstr "ironic")) :=
  ⟨rfl, rfl, List.mem_singleton.mpr rfl,
   c7_primitive_shape (some .debug) testNotification ⟨0⟩ rfl rfl testCall
     (List.mem_singleton.mpr rfl)⟩

/-- Counterexample for C7 as stated: at the concrete emitted notification of
test_emit_notification, the payload's namespace identifier is "ironic",
which is not "baremetal"-scoped (not equal to and not prefixed by
"baremetal"). -/
theorem c7_namespace_counterexample :
    ((emitCalls (some .debug) testNotification ⟨0⟩).map
       (fun c => dictGet "ironic_object.namespace" c.payload)) =
      [some (.pstr "ironic")] ∧
    ("ironic" : String) ≠ "baremetal" ∧
    strStartsWith "ironic" "baremetal" = false :=
  ⟨rfl, by decide, by decide⟩

/-- C8: for a populated payload, when the gate passes the changed-fields
bookkeeping is cleared non-recursively before serialization — the emitted
state differs from the original payload only in `changed := []`, its field
values (hence any nested object's bookkeeping) are untouched, and the
serialized payload is built from that reset state; when the gate fails,
emit returns the payload unchanged and makes no call. -/
theorem c8_reset_changes_frame (conf : Option NotificationPriority)
    (n : Notification) (ctx : Ctx) (hp : n.payload.populated = true) :
    (should_notify conf n.priority = true →
       emit conf n ctx =
         some ({ n.payload with changed := [] },
           [{ publisher_id := n.publisher.service ++ "." ++ n.publisher.host
              method := priorityName n.priority
              context := ctx
              event_type := to_notification_event_type_field n.event_type
              payload := obj_to_primitive { n.payload with changed := [] } }]) ∧
       ({ n.payload with changed := [] } : PayloadState).objFields =
         n.payload.objFields) ∧
    (should_notify conf n.priority = false →
       emit conf n ctx = some (n.payload, [])) := by
  constructor
  · intro hg
    exact ⟨by simp [emit, hp, hg, obj_reset_changes], rfl⟩
  · intro hg
    simp [emit, hp, hg]

/-- Witness for C8 at the fixture of test_emit_notification: the emitted
payload state is the original with cleared bookkeeping, field values
untouched. -/
theorem c8_reset_changes_frame_witness :
    testNotification.payload.populated = true ∧
    should_notify (some .debug) testNotification.priority = true ∧
    emit (some .debug) testNotification ⟨0⟩ =
      some ({ testNotification.payload with changed := [] }, [testCall]) ∧
    ({ testNotification.payload with changed := [] } : PayloadState).objFields =
      testNotification.payload.objFields :=
  ⟨rfl, rfl,
   (((c8_reset_changes_frame (some .debug) testNotification ⟨0⟩ rfl).1 rfl).1).trans rfl,
   ((c8_reset_changes_frame (some .debug) testNotification ⟨0⟩ rfl).1 rfl).2⟩

/-- C10: populating a fresh non-empty-schema payload with kwargs missing a
referenced source key reports the lookup failure, leaves `populated` false
(it is set only after the whole loop), and a subsequent emit of that
payload still fails the populated assertion with zero notifier calls. -/
theorem c10_missing_source_key (nm vr : String)
    (schema : List (String × String × String)) (init : List (String × Val))
    (kwargs : List (String × SourceObj))
    (hne : schema ≠ [])
    (hmiss : ∃ e ∈ schema, dictGet e.2.1 kwargs = none) :
    (populate_schema (mkPayload nm vr schema init) kwargs).2 = false ∧
    (populate_schema (mkPayload nm vr schema init) kwargs).1.populated = false ∧
    (∀ (conf : Option NotificationPriority) (n : Notification) (ctx : Ctx),
       n.payload = (populate_schema (mkPayload nm vr schema init) kwargs).1 →
       emit conf n ctx = none ∧ emitCalls conf n ctx = []) := by
  have hpop0 : (mkPayload nm vr schema init).populated = false := by
    rw [show (mkPayload nm vr schema init).populated = schema.isEmpty from rfl]
    exact List.isEmpty_eq_false.mpr hne
  have h := populate_aux_missing kwargs schema (mkPayload nm vr schema init) hmiss
  have hpop : (populate_schema (mkPayload nm vr schema init) kwargs).1.populated
      = false := h.2.trans hpop0
  refine ⟨h.1, hpop, ?_⟩
  intro conf n ctx hn
  have hnp : n.payload.populated = false := by rw [hn]; exact hpop
  constructor <;> simp [emit, emitCalls, hnp]

/-- Witness for C10: populating the test payload with empty kwargs (the
test_obj source missing) fails, leaves it unpopulated, and emit refuses. -/
theorem c10_missing_source_key_witness :
    testSchema ≠ [] ∧
    (populate_schema testPayload0 []).2 = false ∧
    (populate_schema testPayload0 []).1.populated = false ∧
    emit (some .debug)
      { priority := .debug, event_type := testEventType,
        publisher := testPublisher, payload := (populate_schema testPayload0 []).1 }
      ⟨0⟩ = none := by
  have H := c10_missing_source_key "TestNotificationPayload" "1.0" testSchema
    [("an_extra_field", Val.vstr "extra"), ("an_optional_field", Val.vint 1)] []
    (by decide) ⟨("fake_field_1", "test_obj", "fake_field_1"), by decide, rfl⟩
  exact ⟨by decide, H.1, H.2.1, (H.2.2 (some .debug) _ ⟨0⟩ rfl).1⟩

end Ironic
